import Mathlib

/- Formal model of the AutoFinance MCP servers (risk, execution, compliance,
   notification-gateway, alert-engine, market, volatility).

   Modelling conventions:
   - Python floats are modelled as exact rationals.
   - Human-readable message strings built by interpolation are abstracted:
     each violation message becomes a tagged value carrying the offending
     number, and refusal reasons keep only their fixed prefix text.
   - Timestamps are not modelled (wall-clock time).
   - Python str.upper is modelled on the basic-latin range, which is the
     range the source's own docstring restricts itself to. -/

set_option maxHeartbeats 1000000

/- ──────────────────────────── Risk server ────────────────────────────
   Source: src/mcp-servers/risk/server.py -/

/-- RISK_POLICY constant of risk/server.py: max_position_size. -/
def maxPositionSize : ℚ := 15/100

/-- RISK_POLICY constant of risk/server.py: max_volatility. -/
def maxVolatility : ℚ := 1/2

/-- RISK_POLICY constant of risk/server.py: min_confidence. -/
def minConfidence : ℚ := 6/10

/-- RISK_POLICY constant of risk/server.py: max_single_trade_value. -/
def maxSingleTradeValue : ℚ := 20000

/-- One entry of the violations list of validate_trade.  The source appends
an interpolated explanatory string per failed check; the tag records which
check failed and the offending value, abstracting the string formatting. -/
inductive Violation where
  | confidenceBelowMin (confidence : ℚ)
  | volatilityExceedsMax (volatility : ℚ)
  | positionSizeExceedsMax (positionSize : ℚ)
  | tradeValueExceedsMax (tradeValue : ℚ)
deriving DecidableEq, Repr

/-- calculate_risk_score of risk/server.py (lines 33-50): the mean of the
three factors appended to risk_factors, in source order.  Note only the
volatility factor is passed through min with 1.0. -/
def calculateRiskScore (volatility confidence positionSizePct : ℚ) : ℚ :=
  (min (volatility / maxVolatility) 1 + (1 - confidence) + positionSizePct / maxPositionSize) / 3

/-- The fields of validate_trade's returned dict that the claims speak
about; timestamp and the echoed symbol and action are not modelled. -/
structure RiskVerdict where
  approved : Bool
  riskScore : ℚ
  violations : List Violation
deriving Repr

/-- validate_trade of risk/server.py (lines 53-106).  The symbol, action,
quantity and price arguments are only echoed in the returned dict, so they
do not appear here.  The returned risk_score is calculate_risk_score before
the display rounding round(risk_score, 3) applied at line 99. -/
def validateTrade (confidence volatility positionSizePct tradeValue : ℚ) : RiskVerdict :=
  let violations : List Violation :=
    (if confidence < minConfidence then [Violation.confidenceBelowMin confidence] else []) ++
    (if volatility > maxVolatility then [Violation.volatilityExceedsMax volatility] else []) ++
    (if positionSizePct > maxPositionSize then [Violation.positionSizeExceedsMax positionSizePct] else []) ++
    (if tradeValue > maxSingleTradeValue then [Violation.tradeValueExceedsMax tradeValue] else [])
  { approved := violations.length == 0
    riskScore := calculateRiskScore volatility confidence positionSizePct
    violations := violations }

/-- Modelled from the spec's words for comparison in claim C4: the mean of
the three factors with each factor clamped to the interval [0,1]. -/
def riskScoreSpecClamped (volatility confidence positionSizePct : ℚ) : ℚ :=
  (max 0 (min (volatility / maxVolatility) 1) +
   max 0 (min (1 - confidence) 1) +
   max 0 (min (positionSizePct / maxPositionSize) 1)) / 3

/- ─────────────────────────── Execution server ───────────────────────────
   Source: src/mcp-servers/execution/server.py -/

/-- One entry of PORTFOLIO_STATE["positions"]: the dict
with keys quantity, avg_price, current_value, current_price. -/
structure Position where
  quantity : ℚ
  avgPrice : ℚ
  currentValue : ℚ
  currentPrice : ℚ
deriving DecidableEq, Repr

/-- One entry of PORTFOLIO_STATE["transaction_history"]; the timestamp and
risk_score echo are not modelled. -/
structure Transaction where
  tradeId : String
  symbol : String
  action : String
  quantity : ℚ
  price : ℚ
  value : ℚ
deriving DecidableEq, Repr

/-- PORTFOLIO_STATE of execution/server.py: cash, the positions dict
(modelled as an association list keyed by symbol) and the transaction
history; last_updated is a timestamp and is not modelled. -/
structure Portfolio where
  cash : ℚ
  positions : List (String × Position)
  transactionHistory : List Transaction
deriving DecidableEq, Repr

/-- A Python dict with string keys, modelled as an association list:
key in d. -/
def lookupPos {α : Type} (sym : String) : List (String × α) → Option α
  | [] => none
  | (k, p) :: rest => if k = sym then some p else lookupPos sym rest

/-- Dict assignment d[key] = p: replace the existing entry or insert a new
one. -/
def setPos {α : Type} (sym : String) (p : α) : List (String × α) → List (String × α)
  | [] => [(sym, p)]
  | (k, q) :: rest => if k = sym then (sym, p) :: rest else (k, q) :: setPos sym p rest

/-- Dict deletion del d[key]. -/
def erasePos {α : Type} (sym : String) : List (String × α) → List (String × α)
  | [] => []
  | (k, q) :: rest => if k = sym then rest else (k, q) :: erasePos sym rest

/-- The fields of execute_trade's returned dict that the claims speak
about: the success flag and the fixed prefix of the reason string (the
interpolated amounts are not modelled). -/
structure ExecResult where
  success : Bool
  reason : String
deriving DecidableEq, Repr

/-- The tail of execute_trade shared by every non-refused path (lines
141-166): append the transaction record and return success True. -/
def recordTransaction (st : Portfolio) (tradeId symbol action : String)
    (quantity price value : ℚ) : ExecResult × Portfolio :=
  ({ success := true, reason := "" },
   { st with transactionHistory :=
      st.transactionHistory ++ [⟨tradeId, symbol, action, quantity, price, value⟩] })

/-- execute_trade of execution/server.py (lines 54-174), as a function from
the portfolio state to (result, new state).

Faithfulness notes:
- When action is BUY on an existing position and old quantity + quantity is
  zero, the source's total_cost / total_quantity raises ZeroDivisionError,
  which the except handler turns into success False; the cash debit of line
  92 has already happened at that point, so the returned state keeps it.
- When the new SELL quantity is exactly zero the source mutates the
  position in place and then deletes the symbol's key; the net effect on
  the dict is the plain deletion modelled here.
- An action other than BUY and SELL falls through both branches and reaches
  the transaction record with the state unchanged. -/
def executeTrade (st : Portfolio) (tradeId symbol action : String)
    (quantity price : ℚ) (approved : Bool) : ExecResult × Portfolio :=
  if !approved then
    ({ success := false, reason := "Trade not approved by risk server" }, st)
  else
    let tradeValue := quantity * price
    if action = "BUY" then
      if st.cash < tradeValue then
        ({ success := false, reason := "Insufficient cash" }, st)
      else
        let cash' := st.cash - tradeValue
        match lookupPos symbol st.positions with
        | some pos =>
          let totalQuantity := pos.quantity + quantity
          if totalQuantity = 0 then
            ({ success := false, reason := "Execution error: float division by zero" },
             { st with cash := cash' })
          else
            let totalCost := pos.avgPrice * pos.quantity + tradeValue
            let pos' : Position :=
              { quantity := totalQuantity
                avgPrice := totalCost / totalQuantity
                currentValue := totalQuantity * price
                currentPrice := price }
            recordTransaction
              { st with cash := cash', positions := setPos symbol pos' st.positions }
              tradeId symbol action quantity price tradeValue
        | none =>
          let pos' : Position :=
            { quantity := quantity
              avgPrice := price
              currentValue := tradeValue
              currentPrice := price }
          recordTransaction
            { st with cash := cash', positions := setPos symbol pos' st.positions }
            tradeId symbol action quantity price tradeValue
    else if action = "SELL" then
      match lookupPos symbol st.positions with
      | none => ({ success := false, reason := "No position" }, st)
      | some pos =>
        if pos.quantity < quantity then
          ({ success := false, reason := "Insufficient quantity" }, st)
        else
          let q' := pos.quantity - quantity
          let pos' : Position :=
            { pos with quantity := q', currentValue := q' * price, currentPrice := price }
          let positions' :=
            if q' = 0 then erasePos symbol st.positions
            else setPos symbol pos' st.positions
          recordTransaction
            { st with cash := st.cash + tradeValue, positions := positions' }
            tradeId symbol action quantity price tradeValue
    else
      recordTransaction st tradeId symbol action quantity price tradeValue

/- ─────────────────────────── Compliance server ───────────────────────────
   Source: src/mcp-servers/compliance/server.py -/

/-- One entry of AUDIT_LOG.  eventId is the numeric part of the EVT_ token
(the source formats it as EVT_ followed by the zero-padded number, so the
token order is the numeric order).  The timestamp is not modelled and the
details dict is kept opaque as a string. -/
structure AuditEvent where
  eventId : Nat
  eventType : String
  agentName : String
  action : String
  details : String
  severity : String
deriving DecidableEq, Repr

/-- log_event of compliance/server.py (lines 30-65): the appended event
carries event_id = len(AUDIT_LOG) + 1. -/
def logEvent (log : List AuditEvent) (eventType agentName action details severity : String) :
    List AuditEvent :=
  log ++ [{ eventId := log.length + 1
            eventType := eventType
            agentName := agentName
            action := action
            details := details
            severity := severity }]

/-- The event_id (numeric part) that log_event assigns when called on a
given log state. -/
def issuedEventId (log : List AuditEvent) : Nat :=
  log.length + 1

/-- clear_audit_log of compliance/server.py (lines 218-231). -/
def clearAuditLog (_log : List AuditEvent) : List AuditEvent :=
  []

/-- A tool call that changes the audit log within one process lifetime;
log carries the arguments of log_event. -/
inductive AuditCmd where
  | log (eventType agentName action details severity : String)
  | clear
deriving Repr

/-- Apply one tool call to the audit log state. -/
def applyAuditCmd (log : List AuditEvent) : AuditCmd → List AuditEvent
  | .log eventType agentName action details severity =>
      logEvent log eventType agentName action details severity
  | .clear => clearAuditLog log

/-- Run a sequence of tool calls from a log state. -/
def runAuditCmds (log : List AuditEvent) : List AuditCmd → List AuditEvent
  | [] => log
  | c :: cs => runAuditCmds (applyAuditCmd log c) cs

/- ──────────────── Notification gateway and alert engine ────────────────
   Sources: src/mcp-servers/notification-gateway/server.py and
   src/mcp-servers/alert-engine/server.py (the two servers carry the same
   _check_condition and the same per-alert monitor mutation). -/

/-- Python truthiness of the prev_price value in the source's
"prev_price and ..." guard: None and 0.0 are falsy. -/
def pyTruthy : Option ℚ → Bool
  | none => false
  | some p => decide (p ≠ 0)

/-- _check_condition of notification-gateway/server.py (lines 274-279) and
alert-engine/server.py (lines 145-155): four guarded early returns of True,
otherwise False.  The crossing guards read "prev_price and
prev_price <= threshold < price" (resp. >= and >), so they require a truthy
previous price. -/
def checkCondition (condition : String) (price threshold : ℚ) (prevPrice : Option ℚ) : Bool :=
  if condition = "above" ∧ threshold < price then true
  else if condition = "below" ∧ price < threshold then true
  else if condition = "crosses_above" ∧ pyTruthy prevPrice = true ∧
          prevPrice.getD 0 ≤ threshold ∧ threshold < price then true
  else if condition = "crosses_below" ∧ pyTruthy prevPrice = true ∧
          threshold ≤ prevPrice.getD 0 ∧ price < threshold then true
  else false

/-- One entry of ACTIVE_ALERTS as created by create_price_alert
(notification-gateway lines 445-451) and create_alert (alert-engine lines
275-289); created_at, last_checked and triggered_at are timestamps and are
not modelled. -/
structure Alert where
  alertId : String
  userId : String
  symbol : String
  condition : String
  threshold : ℚ
  triggered : Bool
  triggerCount : Nat
  lastPrice : Option ℚ
  triggeredPrice : Option ℚ
deriving Repr

/-- The alert dict freshly inserted by create_price_alert / create_alert:
triggered False, trigger_count 0, last_price None. -/
def freshAlert (alertId userId symbol condition : String) (threshold : ℚ) : Alert :=
  { alertId := alertId
    userId := userId
    symbol := symbol
    condition := condition
    threshold := threshold
    triggered := false
    triggerCount := 0
    lastPrice := none
    triggeredPrice := none }

/-- The per-alert body of one monitor tick (notification-gateway
_monitor_loop lines 297-315, check_alerts_now lines 505-519, and the same
loop in alert-engine/server.py): an already-triggered alert is filtered out
untouched; an alert whose symbol got no quote is skipped untouched; else
the condition is evaluated against the quote and the alert's last_price,
a firing sets triggered, triggered_price and increments trigger_count, and
last_price is always updated to the observed price. -/
def tickAlert (quote : String → Option ℚ) (a : Alert) : Alert :=
  if a.triggered then a
  else
    match quote a.symbol with
    | none => a
    | some price =>
      if checkCondition a.condition price a.threshold a.lastPrice then
        { a with triggered := true
                 triggerCount := a.triggerCount + 1
                 triggeredPrice := some price
                 lastPrice := some price }
      else
        { a with lastPrice := some price }

/-- A tool call that changes the alert registry.  tick stands for one
monitor-loop iteration or one check_alerts_now call (their per-alert
mutations coincide); quote is the set of prices the market server returned
for this tick. -/
inductive AlertCmd where
  | create (alertId userId symbol condition : String) (threshold : ℚ)
  | delete (alertId : String)
  | tick (quote : String → Option ℚ)

/-- Apply one tool call to ACTIVE_ALERTS. -/
def applyAlertCmd (m : List (String × Alert)) : AlertCmd → List (String × Alert)
  | .create alertId userId symbol condition threshold =>
      setPos alertId (freshAlert alertId userId symbol condition threshold) m
  | .delete alertId => erasePos alertId m
  | .tick quote => m.map fun kv => (kv.1, tickAlert quote kv.2)

/-- Run a sequence of tool calls on the alert registry from a given state;
the fresh process starts from the empty registry. -/
def runAlertCmds (m : List (String × Alert)) : List AlertCmd → List (String × Alert)
  | [] => m
  | c :: cs => runAlertCmds (applyAlertCmd m c) cs

/- ─────────────────── Notification fan-out (send_alert) ───────────────────
   Source: src/mcp-servers/notification-gateway/server.py lines 114-217 and
   360-377. -/

/-- The channel configuration read from the environment at startup; a
Python empty string is falsy, so a channel is configured iff its string is
non-empty. -/
structure NotifyConfig where
  discordWebhookUrl : String
  slackWebhookUrl : String
  slackBotToken : String
  notificationWebhookUrl : String

/-- The outcome of the external HTTP/SMTP deliveries this tick, one flag
per way of delivering: whether requests.post reached the service and the
status check of the corresponding _send function passed.  The network is
outside the program, so it enters the model as this oracle. -/
structure Net where
  discordOk : Bool
  slackWebhookOk : Bool
  slackBotOk : Bool
  webhookOk : Bool

/-- The per-channel result dict: its success flag and channel label. -/
structure SendResult where
  success : Bool
  channel : String
deriving DecidableEq, Repr

/-- _send_file_log (lines 114-123): appends to the local log file and
always returns success True. -/
def sendFileLog : SendResult :=
  { success := true, channel := "file" }

/-- _send_discord (lines 126-142): unconfigured URL or a failed delivery
both yield success False; exceptions are caught inside the function. -/
def sendDiscord (cfg : NotifyConfig) (net : Net) : SendResult :=
  if cfg.discordWebhookUrl = "" then { success := false, channel := "discord" }
  else { success := net.discordOk, channel := "discord" }

/-- _send_slack (lines 145-171): webhook path first, bot-token path second,
else failure; exceptions are caught inside the function. -/
def sendSlack (cfg : NotifyConfig) (net : Net) : SendResult :=
  if cfg.slackWebhookUrl ≠ "" then { success := net.slackWebhookOk, channel := "slack" }
  else if cfg.slackBotToken ≠ "" then { success := net.slackBotOk, channel := "slack" }
  else { success := false, channel := "slack" }

/-- _send_webhook (lines 174-184). -/
def sendWebhook (cfg : NotifyConfig) (net : Net) : SendResult :=
  if cfg.notificationWebhookUrl = "" then { success := false, channel := "webhook" }
  else { success := net.webhookOk, channel := "webhook" }

/-- _broadcast (lines 208-217): file always, then discord, slack, webhook
each when configured, in source order; every configured channel's send
function is called whatever the earlier results were. -/
def broadcast (cfg : NotifyConfig) (net : Net) : List (String × SendResult) :=
  [("file", sendFileLog)] ++
  (if cfg.discordWebhookUrl ≠ "" then [("discord", sendDiscord cfg net)] else []) ++
  (if cfg.slackWebhookUrl ≠ "" ∨ cfg.slackBotToken ≠ "" then [("slack", sendSlack cfg net)] else []) ++
  (if cfg.notificationWebhookUrl ≠ "" then [("webhook", sendWebhook cfg net)] else [])

/-- The counts of send_alert's returned dict (lines 372-377). -/
structure AlertSendSummary where
  channelsAttempted : Nat
  channelsDelivered : Nat
  results : List (String × SendResult)
deriving Repr

/-- send_alert of notification-gateway/server.py (lines 360-377). -/
def sendAlert (cfg : NotifyConfig) (net : Net) : AlertSendSummary :=
  let results := broadcast cfg net
  { channelsAttempted := results.length
    channelsDelivered := (results.filter fun r => r.2.success).length
    results := results }

/-- The channels get_notification_status (lines 416-423) reports available
among those _broadcast serves: file always, discord, slack and webhook when
their configuration is present. -/
def availableBroadcastChannels (cfg : NotifyConfig) : List String :=
  ["file"] ++
  (if cfg.discordWebhookUrl ≠ "" then ["discord"] else []) ++
  (if cfg.slackWebhookUrl ≠ "" ∨ cfg.slackBotToken ≠ "" then ["slack"] else []) ++
  (if cfg.notificationWebhookUrl ≠ "" then ["webhook"] else [])

/- ──────────────── Market symbol normalization and bands ────────────────
   Sources: src/mcp-servers/market/server.py lines 31-62,
   src/mcp-servers/market/server_real.py lines 32-41 and 215-225,
   src/mcp-servers/volatility/server.py lines 27-58 and 278-289. -/

/-- The crypto table of market/server.py lines 36-42 (the same table
appears in volatility/server.py lines 32-38), as character lists. -/
def cryptoMap : List (List Char × List Char) :=
  [("BTC".toList, "BTC-USD".toList), ("ETH".toList, "ETH-USD".toList),
   ("SOL".toList, "SOL-USD".toList), ("BNB".toList, "BNB-USD".toList),
   ("XRP".toList, "XRP-USD".toList), ("DOGE".toList, "DOGE-USD".toList),
   ("ADA".toList, "ADA-USD".toList), ("AVAX".toList, "AVAX-USD".toList),
   ("DOT".toList, "DOT-USD".toList), ("MATIC".toList, "MATIC-USD".toList),
   ("LINK".toList, "LINK-USD".toList), ("UNI".toList, "UNI-USD".toList),
   ("LTC".toList, "LTC-USD".toList), ("BCH".toList, "BCH-USD".toList),
   ("ALGO".toList, "ALGO-USD".toList), ("XLM".toList, "XLM-USD".toList),
   ("NEAR".toList, "NEAR-USD".toList), ("ATOM".toList, "ATOM-USD".toList),
   ("ICP".toList, "ICP-USD".toList), ("FIL".toList, "FIL-USD".toList)]

/-- Dict lookup in the crypto table. -/
def lookupSym (k : List Char) : List (List Char × List Char) → Option (List Char)
  | [] => none
  | (key, v) :: rest => if key = k then some v else lookupSym k rest

/-- Python s.replace with the pattern USDT and the empty replacement: scan
left to right, drop each non-overlapping occurrence, never rescan across an
already-consumed position. -/
def stripUSDT : List Char → List Char
  | 'U' :: 'S' :: 'D' :: 'T' :: rest => stripUSDT rest
  | c :: rest => c :: stripUSDT rest
  | [] => []

/-- _get_ticker_symbol of market/server.py (lines 31-62) and
volatility/server.py (lines 27-58), on the already-uppercased character
list: crypto-table exact match, then USDT-suffix stripping with a second
table lookup, then -USD pass-through, then default pass-through. -/
def getTickerSymbolCore (u : List Char) : List Char :=
  match lookupSym u cryptoMap with
  | some v => v
  | none =>
    if ['U', 'S', 'D', 'T'].isSuffixOf u then
      let base := stripUSDT u
      match lookupSym base cryptoMap with
      | some v => v
      | none => base
    else if ['-', 'U', 'S', 'D'].isSuffixOf u then u
    else u

/-- _get_ticker_symbol of market/server.py as a string function; Python
str.upper is modelled character-wise on the basic-latin range. -/
def getTickerSymbol (s : String) : String :=
  ⟨getTickerSymbolCore (s.data.map Char.toUpper)⟩

/-- The crypto map of market/server_real.py lines 35-40. -/
def cryptoMapReal : List (String × String) :=
  [("BTCUSDT", "BTC-USD"), ("ETHUSDT", "ETH-USD"),
   ("SOLUSDT", "SOL-USD"), ("BNBUSDT", "BNB-USD")]

/-- _get_ticker_symbol of market/server_real.py (lines 32-41):
crypto_map.get(symbol, symbol), with no uppercasing and no stripping. -/
def getTickerSymbolReal (symbol : String) : String :=
  match lookupPos symbol cryptoMapReal with
  | some v => v
  | none => symbol

/-- The risk_level field of calculate_volatility in market/server_real.py
(line 222): LOW if the annualized volatility is below 0.2, MEDIUM below
0.5, HIGH otherwise. -/
def calculateVolatilityRiskLevel (annualizedVolatility : ℚ) : String :=
  if annualizedVolatility < 2/10 then "LOW"
  else if annualizedVolatility < 5/10 then "MEDIUM"
  else "HIGH"

/-- The risk_level and risk_score pair of get_volatility_score in
volatility/server.py (lines 281-289): bands at 0.15 and 0.30. -/
def getVolatilityScoreLevel (currentVolatility : ℚ) : String × ℚ :=
  if currentVolatility < 15/100 then
    ("LOW", currentVolatility / (15/100) * (3/10))
  else if currentVolatility < 30/100 then
    ("MEDIUM", 3/10 + (currentVolatility - 15/100) / (15/100) * (4/10))
  else
    ("HIGH", 7/10 + min ((currentVolatility - 30/100) / (70/100) * (3/10)) (3/10))

/- ─────────────────────────── Helper lemmas ─────────────────────────── -/

theorem lookupPos_setPos_self {α : Type} (sym : String) (p : α) (l : List (String × α)) :
    lookupPos sym (setPos sym p l) = some p := by
  induction l with
  | nil => simp [setPos, lookupPos]
  | cons kv rest ih =>
    obtain ⟨k, q⟩ := kv
    by_cases h : k = sym <;> simp [setPos, lookupPos, h, ih]

theorem lookupPos_eq_none_of_not_mem {α : Type} (sym : String) (l : List (String × α))
    (h : sym ∉ l.map Prod.fst) : lookupPos sym l = none := by
  induction l with
  | nil => simp [lookupPos]
  | cons kv rest ih =>
    obtain ⟨k, q⟩ := kv
    simp only [List.map_cons, List.mem_cons] at h
    push_neg at h
    have hk : ¬ k = sym := fun hk => h.1 hk.symm
    simp [lookupPos, hk, ih h.2]

theorem lookupPos_erasePos_self {α : Type} (sym : String) (l : List (String × α))
    (h : (l.map Prod.fst).Nodup) : lookupPos sym (erasePos sym l) = none := by
  induction l with
  | nil => simp [erasePos, lookupPos]
  | cons kv rest ih =>
    obtain ⟨k, q⟩ := kv
    simp only [List.map_cons, List.nodup_cons] at h
    by_cases hk : k = sym
    · subst hk
      simpa [erasePos] using lookupPos_eq_none_of_not_mem k rest h.1
    · simp [erasePos, lookupPos, hk, ih h.2]

theorem lookupPos_mem {α : Type} {sym : String} {v : α} {l : List (String × α)}
    (h : lookupPos sym l = some v) : (sym, v) ∈ l := by
  induction l with
  | nil => simp [lookupPos] at h
  | cons kv rest ih =>
    obtain ⟨k, q⟩ := kv
    rw [lookupPos] at h
    by_cases hk : k = sym
    · rw [if_pos hk] at h
      subst hk
      obtain rfl : q = v := Option.some.inj h
      exact List.mem_cons_self _ _
    · rw [if_neg hk] at h
      exact List.mem_cons_of_mem _ (ih h)

/- ─────────────────────────── Claim theorems ─────────────────────────── -/

/-- C1: for every call to validate_trade, approved is True exactly when the
violations list is empty; the list is empty exactly when confidence is at
least 0.60, volatility at most 0.50, position size fraction at most 0.15
and trade value at most 20000; and each failed check contributes exactly
its own explanatory entry. -/
theorem validateTrade_approved_iff_no_violation
    (confidence volatility positionSizePct tradeValue : ℚ) :
    ((validateTrade confidence volatility positionSizePct tradeValue).approved = true ↔
      (validateTrade confidence volatility positionSizePct tradeValue).violations = []) ∧
    ((validateTrade confidence volatility positionSizePct tradeValue).violations = [] ↔
      (minConfidence ≤ confidence ∧ volatility ≤ maxVolatility ∧
       positionSizePct ≤ maxPositionSize ∧ tradeValue ≤ maxSingleTradeValue)) ∧
    (Violation.confidenceBelowMin confidence ∈
        (validateTrade confidence volatility positionSizePct tradeValue).violations ↔
      confidence < minConfidence) ∧
    (Violation.volatilityExceedsMax volatility ∈
        (validateTrade confidence volatility positionSizePct tradeValue).violations ↔
      maxVolatility < volatility) ∧
    (Violation.positionSizeExceedsMax positionSizePct ∈
        (validateTrade confidence volatility positionSizePct tradeValue).violations ↔
      maxPositionSize < positionSizePct) ∧
    (Violation.tradeValueExceedsMax tradeValue ∈
        (validateTrade confidence volatility positionSizePct tradeValue).violations ↔
      maxSingleTradeValue < tradeValue) := by
  simp only [validateTrade, gt_iff_lt]
  split_ifs <;> simp_all [not_lt, le_of_lt]

/-- C4 counterexample: at volatility 0, confidence 0 and position size
fraction 0.45 the source's risk score is 4/3, which differs from the mean
of the clamped factors (2/3) and lies outside [0,1]: the confidence and
position-size factors are not clamped. -/
theorem calculateRiskScore_unclamped_cex :
    (validateTrade 0 0 (45/100) 100).riskScore = 4/3 ∧
    riskScoreSpecClamped 0 0 (45/100) = 2/3 ∧
    ¬((validateTrade 0 0 (45/100) 100).riskScore ≤ 1) := by
  refine ⟨?_, ?_, ?_⟩ <;>
    norm_num [validateTrade, calculateRiskScore, riskScoreSpecClamped,
      maxVolatility, maxPositionSize, minConfidence, maxSingleTradeValue]

/-- C4 amended: the risk_score returned by validate_trade is the mean of
min(volatility/0.50, 1), 1 − confidence and position_size_pct/0.15, where
only the volatility factor is clamped (from above); whenever confidence
lies in [0,1], volatility is nonnegative and position_size_pct lies in
[0, 0.15], the score lies in [0,1]. -/
theorem validateTrade_riskScore_mean_and_bounds
    (confidence volatility positionSizePct tradeValue : ℚ)
    (hc0 : 0 ≤ confidence) (hc1 : confidence ≤ 1)
    (hv : 0 ≤ volatility)
    (hp0 : 0 ≤ positionSizePct) (hp1 : positionSizePct ≤ maxPositionSize) :
    (validateTrade confidence volatility positionSizePct tradeValue).riskScore =
      (min (volatility / maxVolatility) 1 + (1 - confidence) +
        positionSizePct / maxPositionSize) / 3 ∧
    0 ≤ (validateTrade confidence volatility positionSizePct tradeValue).riskScore ∧
    (validateTrade confidence volatility positionSizePct tradeValue).riskScore ≤ 1 := by
  have hscore : (validateTrade confidence volatility positionSizePct tradeValue).riskScore =
      (min (volatility / maxVolatility) 1 + (1 - confidence) +
        positionSizePct / maxPositionSize) / 3 := rfl
  refine ⟨hscore, ?_, ?_⟩ <;> rw [hscore]
  · have h1 : 0 ≤ min (volatility / maxVolatility) 1 :=
      le_min (div_nonneg hv (by norm_num [maxVolatility])) (by norm_num)
    have h2 : 0 ≤ 1 - confidence := by linarith
    have h3 : 0 ≤ positionSizePct / maxPositionSize :=
      div_nonneg hp0 (by norm_num [maxPositionSize])
    linarith
  · have h1 : min (volatility / maxVolatility) 1 ≤ 1 := min_le_right _ _
    have h2 : 1 - confidence ≤ 1 := by linarith
    have h3 : positionSizePct / maxPositionSize ≤ 1 :=
      (div_le_one (by norm_num [maxPositionSize])).mpr hp1
    linarith

/-- C4 witness: the amended theorem applied at confidence 3/4, volatility
1/4, position size fraction 1/10 and trade value 100. -/
theorem validateTrade_riskScore_bounds_witness :
    (validateTrade (3/4) (1/4) (1/10) 100).riskScore =
      (min ((1/4 : ℚ) / maxVolatility) 1 + (1 - 3/4) + (1/10 : ℚ) / maxPositionSize) / 3 ∧
    0 ≤ (validateTrade (3/4) (1/4) (1/10) 100).riskScore ∧
    (validateTrade (3/4) (1/4) (1/10) 100).riskScore ≤ 1 :=
  validateTrade_riskScore_mean_and_bounds (3/4) (1/4) (1/10) 100
    (by norm_num) (by norm_num) (by norm_num) (by norm_num)
    (by norm_num [maxPositionSize])

/-- C2: an approved BUY executes exactly when cash covers quantity·price
(equality succeeds, any shortfall refuses with the portfolio unchanged); on
success cash drops by exactly quantity·price and the position satisfies
new_avg·new_qty = old_avg·old_qty + quantity·price, a fresh position being
created at avg_price = price.  The hypotheses restrict to positive bought
quantity and a nonnegatively-sized existing position, which keeps the
combined quantity away from the source's division by zero. -/
theorem executeTrade_buy_spec (st : Portfolio) (tradeId symbol : String)
    (quantity price : ℚ) (hq : 0 < quantity)
    (hpos : ∀ pos, lookupPos symbol st.positions = some pos → 0 ≤ pos.quantity) :
    ((executeTrade st tradeId symbol "BUY" quantity price true).1.success = true ↔
      quantity * price ≤ st.cash) ∧
    (st.cash < quantity * price →
      (executeTrade st tradeId symbol "BUY" quantity price true).2 = st) ∧
    (quantity * price ≤ st.cash →
      (executeTrade st tradeId symbol "BUY" quantity price true).2.cash =
        st.cash - quantity * price ∧
      (lookupPos symbol st.positions = none →
        lookupPos symbol (executeTrade st tradeId symbol "BUY" quantity price true).2.positions =
          some { quantity := quantity, avgPrice := price,
                 currentValue := quantity * price, currentPrice := price }) ∧
      (∀ old, lookupPos symbol st.positions = some old →
        ∃ newPos,
          lookupPos symbol (executeTrade st tradeId symbol "BUY" quantity price true).2.positions =
            some newPos ∧
          newPos.quantity = old.quantity + quantity ∧
          newPos.avgPrice * newPos.quantity =
            old.avgPrice * old.quantity + quantity * price)) := by
  by_cases hc : st.cash < quantity * price
  · have hfail : executeTrade st tradeId symbol "BUY" quantity price true =
        ({ success := false, reason := "Insufficient cash" }, st) := by
      simp [executeTrade, hc]
    rw [hfail]
    refine ⟨?_, fun _ => rfl, fun hle => absurd hle (not_le.mpr hc)⟩
    simp [not_le.mpr hc]
  · have hle : quantity * price ≤ st.cash := not_lt.mp hc
    cases hl : lookupPos symbol st.positions with
    | none =>
      have hrun : executeTrade st tradeId symbol "BUY" quantity price true =
          recordTransaction
            { st with cash := st.cash - quantity * price
                      positions := setPos symbol
                        { quantity := quantity, avgPrice := price,
                          currentValue := quantity * price, currentPrice := price }
                        st.positions }
            tradeId symbol "BUY" quantity price (quantity * price) := by
        simp [executeTrade, hc, hl]
      rw [hrun]
      refine ⟨by simp [recordTransaction, hle], fun hlt => absurd hlt hc, fun _ => ?_⟩
      refine ⟨rfl, fun _ => ?_, fun old hold => ?_⟩
      · exact lookupPos_setPos_self symbol _ st.positions
      · exact absurd hold (by simp)
    | some pos =>
      have h0 : 0 ≤ pos.quantity := hpos pos hl
      have hq0 : ¬(pos.quantity + quantity = 0) := by positivity
      have hrun : executeTrade st tradeId symbol "BUY" quantity price true =
          recordTransaction
            { st with cash := st.cash - quantity * price
                      positions := setPos symbol
                        { quantity := pos.quantity + quantity
                          avgPrice := (pos.avgPrice * pos.quantity + quantity * price) /
                            (pos.quantity + quantity)
                          currentValue := (pos.quantity + quantity) * price
                          currentPrice := price }
                        st.positions }
            tradeId symbol "BUY" quantity price (quantity * price) := by
        simp [executeTrade, hc, hl, hq0]
      rw [hrun]
      refine ⟨by simp [recordTransaction, hle], fun hlt => absurd hlt hc, fun _ => ?_⟩
      refine ⟨rfl, fun hnone => ?_, fun old hold => ?_⟩
      · exact absurd hnone (by simp)
      · obtain rfl : pos = old := Option.some.inj hold
        refine ⟨_, lookupPos_setPos_self symbol _ st.positions, rfl, ?_⟩
        exact div_mul_cancel₀ _ hq0

/-- C2 witness: the theorem applied to the initial portfolio of cash
100000 with no positions, buying 2 units at price 48000: the trade value
96000 is affordable, cash drops to 4000 and the fresh position carries
avg_price 48000. -/
theorem executeTrade_buy_spec_witness :
    ((executeTrade ⟨100000, [], []⟩ "T1" "AAPL" "BUY" 2 48000 true).1.success = true ↔
      (2 : ℚ) * 48000 ≤ (Portfolio.mk 100000 [] []).cash) ∧
    ((Portfolio.mk 100000 [] []).cash < 2 * 48000 →
      (executeTrade ⟨100000, [], []⟩ "T1" "AAPL" "BUY" 2 48000 true).2 = ⟨100000, [], []⟩) ∧
    ((2 : ℚ) * 48000 ≤ (Portfolio.mk 100000 [] []).cash →
      (executeTrade ⟨100000, [], []⟩ "T1" "AAPL" "BUY" 2 48000 true).2.cash =
        (Portfolio.mk 100000 [] []).cash - 2 * 48000 ∧
      (lookupPos "AAPL" (Portfolio.mk 100000 [] []).positions = none →
        lookupPos "AAPL" (executeTrade ⟨100000, [], []⟩ "T1" "AAPL" "BUY" 2 48000 true).2.positions =
          some { quantity := 2, avgPrice := 48000,
                 currentValue := 2 * 48000, currentPrice := 48000 }) ∧
      (∀ old, lookupPos "AAPL" (Portfolio.mk 100000 [] []).positions = some old →
        ∃ newPos,
          lookupPos "AAPL"
              (executeTrade ⟨100000, [], []⟩ "T1" "AAPL" "BUY" 2 48000 true).2.positions =
            some newPos ∧
          newPos.quantity = old.quantity + 2 ∧
          newPos.avgPrice * newPos.quantity = old.avgPrice * old.quantity + 2 * 48000)) :=
  executeTrade_buy_spec ⟨100000, [], []⟩ "T1" "AAPL" 2 48000 (by norm_num)
    (fun pos h => by simp [lookupPos] at h)

/-- C3: an approved SELL with no position, or with less held quantity than
requested, is refused with the portfolio unchanged; otherwise it succeeds,
cash grows by exactly quantity·price, the average cost is unchanged, and
the symbol's key is removed exactly when the resulting quantity is zero.
The Nodup hypothesis states that the positions dict has at most one entry
per symbol, as a Python dict does. -/
theorem executeTrade_sell_spec (st : Portfolio) (tradeId symbol : String)
    (quantity price : ℚ)
    (hkeys : (st.positions.map Prod.fst).Nodup) :
    (lookupPos symbol st.positions = none →
      (executeTrade st tradeId symbol "SELL" quantity price true).1.success = false ∧
      (executeTrade st tradeId symbol "SELL" quantity price true).2 = st) ∧
    (∀ old, lookupPos symbol st.positions = some old →
      (old.quantity < quantity →
        (executeTrade st tradeId symbol "SELL" quantity price true).1.success = false ∧
        (executeTrade st tradeId symbol "SELL" quantity price true).2 = st) ∧
      (quantity ≤ old.quantity →
        (executeTrade st tradeId symbol "SELL" quantity price true).1.success = true ∧
        (executeTrade st tradeId symbol "SELL" quantity price true).2.cash =
          st.cash + quantity * price ∧
        (old.quantity = quantity →
          lookupPos symbol
            (executeTrade st tradeId symbol "SELL" quantity price true).2.positions = none) ∧
        (old.quantity ≠ quantity →
          ∃ newPos,
            lookupPos symbol
              (executeTrade st tradeId symbol "SELL" quantity price true).2.positions =
              some newPos ∧
            newPos.quantity = old.quantity - quantity ∧
            newPos.avgPrice = old.avgPrice))) := by
  constructor
  · intro hl
    have hrun : executeTrade st tradeId symbol "SELL" quantity price true =
        ({ success := false, reason := "No position" }, st) := by
      simp [executeTrade, hl]
    rw [hrun]
    exact ⟨rfl, rfl⟩
  · intro old hl
    constructor
    · intro hlt
      have hrun : executeTrade st tradeId symbol "SELL" quantity price true =
          ({ success := false, reason := "Insufficient quantity" }, st) := by
        simp [executeTrade, hl, hlt]
      rw [hrun]
      exact ⟨rfl, rfl⟩
    · intro hge
      have hnlt : ¬ old.quantity < quantity := not_lt.mpr hge
      by_cases hzero : old.quantity - quantity = 0
      · have hrun : executeTrade st tradeId symbol "SELL" quantity price true =
            recordTransaction
              { st with cash := st.cash + quantity * price
                        positions := erasePos symbol st.positions }
              tradeId symbol "SELL" quantity price (quantity * price) := by
          simp [executeTrade, hl, hnlt, hzero]
        rw [hrun]
        refine ⟨rfl, rfl, fun _ => ?_, fun hne => ?_⟩
        · exact lookupPos_erasePos_self symbol st.positions hkeys
        · exact absurd (by linarith [sub_eq_zero.mp hzero]) hne
      · have hrun : executeTrade st tradeId symbol "SELL" quantity price true =
            recordTransaction
              { st with cash := st.cash + quantity * price
                        positions := setPos symbol
                          { old with quantity := old.quantity - quantity
                                     currentValue := (old.quantity - quantity) * price
                                     currentPrice := price }
                          st.positions }
              tradeId symbol "SELL" quantity price (quantity * price) := by
          simp [executeTrade, hl, hnlt, hzero]
        rw [hrun]
        refine ⟨rfl, rfl, fun heq => ?_, fun _ => ?_⟩
        · exact absurd (by rw [heq, sub_self]) hzero
        · exact ⟨_, lookupPos_setPos_self symbol _ st.positions, rfl, rfl⟩

/-- C3 witness: the theorem applied to a portfolio holding 5 units of AAPL
at average cost 100, selling 2 at price 150: the sale succeeds, cash grows
by 300 and the remaining position keeps avg_price 100. -/
theorem executeTrade_sell_spec_witness :
    (lookupPos "AAPL" [("AAPL", Position.mk 5 100 500 100)] = none →
      (executeTrade ⟨1000, [("AAPL", ⟨5, 100, 500, 100⟩)], []⟩
          "T2" "AAPL" "SELL" 2 150 true).1.success = false ∧
      (executeTrade ⟨1000, [("AAPL", ⟨5, 100, 500, 100⟩)], []⟩
          "T2" "AAPL" "SELL" 2 150 true).2 = ⟨1000, [("AAPL", ⟨5, 100, 500, 100⟩)], []⟩) ∧
    (∀ old, lookupPos "AAPL" [("AAPL", Position.mk 5 100 500 100)] = some old →
      (old.quantity < 2 →
        (executeTrade ⟨1000, [("AAPL", ⟨5, 100, 500, 100⟩)], []⟩
            "T2" "AAPL" "SELL" 2 150 true).1.success = false ∧
        (executeTrade ⟨1000, [("AAPL", ⟨5, 100, 500, 100⟩)], []⟩
            "T2" "AAPL" "SELL" 2 150 true).2 = ⟨1000, [("AAPL", ⟨5, 100, 500, 100⟩)], []⟩) ∧
      ((2 : ℚ) ≤ old.quantity →
        (executeTrade ⟨1000, [("AAPL", ⟨5, 100, 500, 100⟩)], []⟩
            "T2" "AAPL" "SELL" 2 150 true).1.success = true ∧
        (executeTrade ⟨1000, [("AAPL", ⟨5, 100, 500, 100⟩)], []⟩
            "T2" "AAPL" "SELL" 2 150 true).2.cash = 1000 + 2 * 150 ∧
        (old.quantity = 2 →
          lookupPos "AAPL"
            (executeTrade ⟨1000, [("AAPL", ⟨5, 100, 500, 100⟩)], []⟩
                "T2" "AAPL" "SELL" 2 150 true).2.positions = none) ∧
        (old.quantity ≠ 2 →
          ∃ newPos,
            lookupPos "AAPL"
              (executeTrade ⟨1000, [("AAPL", ⟨5, 100, 500, 100⟩)], []⟩
                  "T2" "AAPL" "SELL" 2 150 true).2.positions = some newPos ∧
            newPos.quantity = old.quantity - 2 ∧
            newPos.avgPrice = old.avgPrice))) :=
  executeTrade_sell_spec ⟨1000, [("AAPL", ⟨5, 100, 500, 100⟩)], []⟩ "T2" "AAPL" 2 150
    (by simp)

/-- C5: a freshly created alert carries last_price None, and for a
crosses_above or crosses_below alert an evaluation performed while
last_price is None never sets triggered, whatever price the market
returned and whatever the threshold. -/
theorem crossing_alert_never_fires_on_first_observation
    (alertId userId symbol condition : String) (threshold : ℚ)
    (hcond : condition = "crosses_above" ∨ condition = "crosses_below") :
    (freshAlert alertId userId symbol condition threshold).lastPrice = none ∧
    (∀ price : ℚ, checkCondition condition price threshold none = false) ∧
    (∀ quote : String → Option ℚ,
      (tickAlert quote (freshAlert alertId userId symbol condition threshold)).triggered =
        false) := by
  have hcheck : ∀ price : ℚ, checkCondition condition price threshold none = false := by
    intro price
    rcases hcond with rfl | rfl <;> simp [checkCondition, pyTruthy]
  refine ⟨rfl, hcheck, fun quote => ?_⟩
  unfold tickAlert
  cases hq : quote (freshAlert alertId userId symbol condition threshold).symbol with
  | none => simp [freshAlert, hq]
  | some price => simp [freshAlert, hq, hcheck price]

/-- C5 witness: a fresh crosses_above alert on threshold 100 is not
triggered by a first observation at price 105 (which is strictly above the
threshold). -/
theorem crossing_alert_first_observation_witness :
    (freshAlert "a1" "u" "TSLA" "crosses_above" 100).lastPrice = none ∧
    (∀ price : ℚ, checkCondition "crosses_above" price 100 none = false) ∧
    (∀ quote : String → Option ℚ,
      (tickAlert quote (freshAlert "a1" "u" "TSLA" "crosses_above" 100)).triggered = false) :=
  crossing_alert_never_fires_on_first_observation "a1" "u" "TSLA" "crosses_above" 100
    (Or.inl rfl)

/-- C6 counterexample: with clear_audit_log invoked between two log_event
calls, the first event issued from the empty log receives event id 1 and
the later one again receives event id 1, so the earlier id is not strictly
smaller. -/
theorem eventId_not_monotone_across_clear_cex :
    issuedEventId [] = 1 ∧
    issuedEventId (runAuditCmds []
      [AuditCmd.log "system" "srv" "act" "d" "info", AuditCmd.clear]) = 1 ∧
    ¬(issuedEventId [] <
        issuedEventId (runAuditCmds []
          [AuditCmd.log "system" "srv" "act" "d" "info", AuditCmd.clear])) :=
  ⟨rfl, rfl, by decide⟩

theorem runAuditCmds_length_mono (log : List AuditEvent) (cmds : List AuditCmd)
    (h : AuditCmd.clear ∉ cmds) : log.length ≤ (runAuditCmds log cmds).length := by
  induction cmds generalizing log with
  | nil => simp [runAuditCmds]
  | cons c cs ih =>
    simp only [List.mem_cons, not_or] at h
    cases c with
    | log t a act d s =>
      calc log.length ≤ (logEvent log t a act d s).length := by simp [logEvent]
        _ ≤ _ := ih _ h.2
    | clear => exact absurd rfl h.1

/-- C6 amended: between two log_event calls with no intervening
clear_audit_log the numeric event id strictly increases (event_id is the
current log length plus one and the log only grows); clear_audit_log
empties the log, after which ids restart at 1. -/
theorem eventId_strictly_increases_without_clear
    (log : List AuditEvent) (cmds : List AuditCmd) (t a act d s : String)
    (hnc : AuditCmd.clear ∉ cmds) :
    issuedEventId log <
      issuedEventId (runAuditCmds (logEvent log t a act d s) cmds) := by
  have h1 : (logEvent log t a act d s).length = log.length + 1 := by
    simp [logEvent]
  have h2 := runAuditCmds_length_mono (logEvent log t a act d s) cmds hnc
  simp only [issuedEventId]
  omega

/-- C6 witness: the amended theorem at the empty log, one further log_event
between the two ids and no clear. -/
theorem eventId_strictly_increases_witness :
    issuedEventId [] <
      issuedEventId (runAuditCmds (logEvent [] "proposal" "srv" "act" "d" "info")
        [AuditCmd.log "execution" "srv" "act2" "d2" "info"]) :=
  eventId_strictly_increases_without_clear []
    [AuditCmd.log "execution" "srv" "act2" "d2" "info"]
    "proposal" "srv" "act" "d" "info" (by simp)

/-- C7 counterexample: at annualized volatility exactly 0.30 the
calculate_volatility tool of the market server labels the risk MEDIUM, not
HIGH: its bands sit at 0.20 and 0.50, not at 0.15 and 0.30. -/
theorem calculateVolatility_band_at_030_cex :
    calculateVolatilityRiskLevel (30/100) = "MEDIUM" ∧
    ¬(calculateVolatilityRiskLevel (30/100) = "HIGH") := by
  have h : calculateVolatilityRiskLevel (30/100) = "MEDIUM" := by
    norm_num [calculateVolatilityRiskLevel]
  rw [h]
  exact ⟨rfl, by decide⟩

/-- C7 amended: calculate_volatility in the market server classifies with
bands LOW below 0.20, MEDIUM in [0.20, 0.50) and HIGH at and above 0.50
(so 0.30 is MEDIUM there), while get_volatility_score in the volatility
server uses the claimed bands LOW below 0.15, MEDIUM in [0.15, 0.30) and
HIGH at and above 0.30, with exactly 0.30 classified HIGH. -/
theorem volatility_riskLevel_bands (v : ℚ) :
    (calculateVolatilityRiskLevel v = "LOW" ↔ v < 2/10) ∧
    (calculateVolatilityRiskLevel v = "MEDIUM" ↔ 2/10 ≤ v ∧ v < 5/10) ∧
    (calculateVolatilityRiskLevel v = "HIGH" ↔ 5/10 ≤ v) ∧
    ((getVolatilityScoreLevel v).1 = "LOW" ↔ v < 15/100) ∧
    ((getVolatilityScoreLevel v).1 = "MEDIUM" ↔ 15/100 ≤ v ∧ v < 30/100) ∧
    ((getVolatilityScoreLevel v).1 = "HIGH" ↔ 30/100 ≤ v) ∧
    (getVolatilityScoreLevel (30/100)).1 = "HIGH" := by
  have hM : ("MEDIUM" : String) ≠ "LOW" := by decide
  have hH : ("HIGH" : String) ≠ "LOW" := by decide
  have hLM : ("LOW" : String) ≠ "MEDIUM" := by decide
  have hHM : ("HIGH" : String) ≠ "MEDIUM" := by decide
  have hLH : ("LOW" : String) ≠ "HIGH" := by decide
  have hMH : ("MEDIUM" : String) ≠ "HIGH" := by decide
  refine ⟨?_, ?_, ?_, ?_, ?_, ?_, by norm_num [getVolatilityScoreLevel]⟩
  · unfold calculateVolatilityRiskLevel
    split_ifs with h1 h2
    · simp [h1]
    · simp [hM, h1]
    · simp [hH, h1]
  · unfold calculateVolatilityRiskLevel
    split_ifs with h1 h2
    · exact iff_of_false hLM (fun hc => absurd h1 (not_lt.mpr hc.1))
    · exact iff_of_true rfl ⟨not_lt.mp h1, h2⟩
    · exact iff_of_false hHM (fun hc => absurd hc.2 h2)
  · unfold calculateVolatilityRiskLevel
    split_ifs with h1 h2
    · exact iff_of_false hLH (fun hc => absurd (lt_of_le_of_lt hc h1) (by norm_num))
    · exact iff_of_false hMH (fun hc => absurd h2 (not_lt.mpr hc))
    · exact iff_of_true rfl (not_lt.mp h2)
  · unfold getVolatilityScoreLevel
    split_ifs with h1 h2
    · simp [h1]
    · simp [hM, h1]
    · simp [hH, h1]
  · unfold getVolatilityScoreLevel
    split_ifs with h1 h2
    · exact iff_of_false hLM (fun hc => absurd h1 (not_lt.mpr hc.1))
    · exact iff_of_true rfl ⟨not_lt.mp h1, h2⟩
    · exact iff_of_false hHM (fun hc => absurd hc.2 h2)
  · unfold getVolatilityScoreLevel
    split_ifs with h1 h2
    · exact iff_of_false hLH (fun hc => absurd (lt_of_le_of_lt hc h1) (by norm_num))
    · exact iff_of_false hMH (fun hc => absurd h2 (not_lt.mpr hc))
    · exact iff_of_true rfl (not_lt.mp h2)

/-- C8: send_alert attempts exactly the available channels — the attempted
channel list depends only on the configuration, never on any channel's
delivery outcome, so one channel's failure cannot prevent attempting the
others — and it reports channels_attempted as the number of channels tried
and channels_delivered as the number of per-channel results with success
True (hence at most channels_attempted). -/
theorem sendAlert_attempts_all_available (cfg : NotifyConfig) (net altNet : Net) :
    ((sendAlert cfg net).results.map Prod.fst = availableBroadcastChannels cfg) ∧
    ((sendAlert cfg net).results.map Prod.fst = (sendAlert cfg altNet).results.map Prod.fst) ∧
    (sendAlert cfg net).channelsAttempted = (availableBroadcastChannels cfg).length ∧
    (sendAlert cfg net).channelsDelivered =
      ((sendAlert cfg net).results.filter fun r => r.2.success).length ∧
    (sendAlert cfg net).channelsDelivered ≤ (sendAlert cfg net).channelsAttempted := by
  have hmap : ∀ n : Net, (sendAlert cfg n).results.map Prod.fst =
      availableBroadcastChannels cfg := by
    intro n
    unfold sendAlert broadcast availableBroadcastChannels
    by_cases hd : cfg.discordWebhookUrl = "" <;>
      by_cases hs : cfg.slackWebhookUrl ≠ "" ∨ cfg.slackBotToken ≠ "" <;>
      by_cases hw : cfg.notificationWebhookUrl = "" <;>
      simp [hd, hs, hw]
  refine ⟨hmap net, (hmap net).trans (hmap altNet).symm, ?_, rfl, ?_⟩
  · have := congrArg List.length (hmap net)
    simpa [sendAlert] using this
  · exact List.length_filter_le _ _

theorem mem_setPos {α : Type} {e : String × α} {k : String} {v : α} :
    ∀ {l : List (String × α)}, e ∈ setPos k v l → e = (k, v) ∨ e ∈ l := by
  intro l
  induction l with
  | nil => simp [setPos]
  | cons kv rest ih =>
    obtain ⟨key, q⟩ := kv
    by_cases hk : key = k
    · rw [setPos, if_pos hk]
      intro h
      rcases List.mem_cons.mp h with h | h
      · exact Or.inl h
      · exact Or.inr (List.mem_cons_of_mem _ h)
    · rw [setPos, if_neg hk]
      intro h
      rcases List.mem_cons.mp h with h | h
      · exact Or.inr (h ▸ List.mem_cons_self _ _)
      · rcases ih h with h | h
        · exact Or.inl h
        · exact Or.inr (List.mem_cons_of_mem _ h)

theorem mem_erasePos {α : Type} {e : String × α} {k : String} :
    ∀ {l : List (String × α)}, e ∈ erasePos k l → e ∈ l := by
  intro l
  induction l with
  | nil => simp [erasePos]
  | cons kv rest ih =>
    obtain ⟨key, q⟩ := kv
    by_cases hk : key = k
    · rw [erasePos, if_pos hk]
      exact fun h => List.mem_cons_of_mem _ h
    · rw [erasePos, if_neg hk]
      intro h
      rcases List.mem_cons.mp h with h | h
      · exact h ▸ List.mem_cons_self _ _
      · exact List.mem_cons_of_mem _ (ih h)

theorem tickAlert_preserves_once (quote : String → Option ℚ) (a : Alert)
    (h : a.triggerCount ≤ 1 ∧ (a.triggerCount = 1 ↔ a.triggered = true)) :
    (tickAlert quote a).triggerCount ≤ 1 ∧
    ((tickAlert quote a).triggerCount = 1 ↔ (tickAlert quote a).triggered = true) := by
  unfold tickAlert
  by_cases ht : a.triggered
  · simp only [ht, if_true]
    exact ⟨h.1, by simp [h.2, ht]⟩
  · have hcount : a.triggerCount = 0 := by
      rcases Nat.le_one_iff_eq_zero_or_eq_one.mp h.1 with h0 | h1
      · exact h0
      · exact absurd (h.2.mp h1) (by simpa using ht)
    simp only [ht, if_false, Bool.false_eq_true]
    cases hq : quote a.symbol with
    | none => exact ⟨h.1, by simp [hcount, ht]⟩
    | some price =>
      by_cases hfire : checkCondition a.condition price a.threshold a.lastPrice
      · simp [hfire, hcount]
      · simp only [hfire, if_false, Bool.false_eq_true]
        exact ⟨h.1, by simp [hcount, ht]⟩

theorem runAlertCmds_invariant (cmds : List AlertCmd) :
    ∀ m : List (String × Alert),
      (∀ e ∈ m, e.2.triggerCount ≤ 1 ∧ (e.2.triggerCount = 1 ↔ e.2.triggered = true)) →
      ∀ e ∈ runAlertCmds m cmds,
        e.2.triggerCount ≤ 1 ∧ (e.2.triggerCount = 1 ↔ e.2.triggered = true) := by
  induction cmds with
  | nil => exact fun m hm => hm
  | cons c cs ih =>
    intro m hm
    rw [runAlertCmds]
    refine ih _ ?_
    cases c with
    | create alertId userId symbol condition threshold =>
      intro e he
      rcases mem_setPos he with rfl | he
      · exact ⟨by simp [freshAlert], by simp [freshAlert]⟩
      · exact hm e he
    | delete alertId =>
      exact fun e he => hm e (mem_erasePos he)
    | tick quote =>
      intro e he
      obtain ⟨⟨k, a⟩, hmem, rfl⟩ := List.mem_map.mp he
      exact tickAlert_preserves_once quote a (hm _ hmem)

/-- C10: in every alert registry reachable from the fresh empty registry
through the public tools (create, delete, monitor ticks and manual
checks), every alert has trigger_count at most 1, and trigger_count is 1
exactly when triggered is True: monitor scans only consider alerts with
triggered False, a firing sets triggered True and nothing resets it. -/
theorem alert_fires_at_most_once (cmds : List AlertCmd) (e : String × Alert)
    (hmem : e ∈ runAlertCmds [] cmds) :
    e.2.triggerCount ≤ 1 ∧ (e.2.triggerCount = 1 ↔ e.2.triggered = true) :=
  runAlertCmds_invariant cmds [] (by simp) e hmem

/-- C10 witness: create one above-100 alert and run one tick observing
price 105; the resulting alert of the reachable registry is triggered with
trigger_count exactly 1. -/
theorem alert_fires_at_most_once_witness :
    (("a1", tickAlert (fun _ => some 105) (freshAlert "a1" "u" "TSLA" "above" 100)) :
        String × Alert).2.triggerCount ≤ 1 ∧
    ((("a1", tickAlert (fun _ => some 105) (freshAlert "a1" "u" "TSLA" "above" 100)) :
        String × Alert).2.triggerCount = 1 ↔
      (("a1", tickAlert (fun _ => some 105) (freshAlert "a1" "u" "TSLA" "above" 100)) :
        String × Alert).2.triggered = true) :=
  alert_fires_at_most_once
    [AlertCmd.create "a1" "u" "TSLA" "above" 100, AlertCmd.tick (fun _ => some 105)]
    ("a1", tickAlert (fun _ => some 105) (freshAlert "a1" "u" "TSLA" "above" 100))
    (by simp [runAlertCmds, applyAlertCmd, setPos])

theorem toUpper_toUpper (c : Char) : c.toUpper.toUpper = c.toUpper := by
  simp only [Char.toUpper]
  by_cases h : c.toNat ≥ 97 ∧ c.toNat ≤ 122
  · rw [if_pos h]
    have hval : (c.toNat - 32).isValidChar := Or.inl (by omega)
    have htn : (Char.ofNat (c.toNat - 32)).toNat = c.toNat - 32 := by
      rw [Char.ofNat, dif_pos hval]
      rfl
    rw [if_neg]
    rw [htn]
    omega
  · rw [if_neg h, if_neg h]

theorem map_toUpper_idem (l : List Char) :
    (l.map Char.toUpper).map Char.toUpper = l.map Char.toUpper := by
  rw [List.map_map]
  exact List.map_congr_left fun c _ => toUpper_toUpper c

theorem stripUSDT_map_toUpper : ∀ {l : List Char}, l.map Char.toUpper = l →
    (stripUSDT l).map Char.toUpper = stripUSDT l := by
  intro l
  induction l using stripUSDT.induct with
  | case1 rest ih =>
    intro h
    simp only [List.map_cons, List.cons.injEq] at h
    rw [stripUSDT]
    exact ih h.2.2.2.2
  | case2 c rest hne ih =>
    intro h
    simp only [List.map_cons, List.cons.injEq] at h
    rw [stripUSDT.eq_2 c rest hne]
    simp only [List.map_cons, List.cons.injEq]
    exact ⟨h.1, ih h.2⟩
  | case3 =>
    intro _
    rfl

theorem lookupSym_mem {k v : List Char} :
    ∀ {t : List (List Char × List Char)}, lookupSym k t = some v → (k, v) ∈ t := by
  intro t
  induction t with
  | nil => simp [lookupSym]
  | cons kv rest ih =>
    obtain ⟨key, w⟩ := kv
    rw [lookupSym]
    by_cases hk : key = k
    · rw [if_pos hk]
      intro h
      subst hk
      obtain rfl : w = v := Option.some.inj h
      exact List.mem_cons_self _ _
    · rw [if_neg hk]
      exact fun h => List.mem_cons_of_mem _ (ih h)

theorem cryptoMap_values_fact : ∀ p ∈ cryptoMap,
    lookupSym p.2 cryptoMap = none ∧
    (['U', 'S', 'D', 'T'].isSuffixOf p.2) = false ∧
    (['-', 'U', 'S', 'D'].isSuffixOf p.2) = true ∧
    p.2.map Char.toUpper = p.2 := by decide

theorem cryptoMapReal_values_fact :
    ∀ p ∈ cryptoMapReal, lookupPos p.2 cryptoMapReal = none := by decide

theorem getTickerSymbolCore_eq_self {r : List Char}
    (h1 : lookupSym r cryptoMap = none)
    (h2 : (['U', 'S', 'D', 'T'].isSuffixOf r) = false) :
    getTickerSymbolCore r = r := by
  simp [getTickerSymbolCore, h1, h2, ite_self]

theorem getTickerSymbolCore_map_toUpper {u : List Char} (hu : u.map Char.toUpper = u) :
    (getTickerSymbolCore u).map Char.toUpper = getTickerSymbolCore u := by
  cases hl : lookupSym u cryptoMap with
  | some v =>
    have hv : getTickerSymbolCore u = v := by simp [getTickerSymbolCore, hl]
    rw [hv]
    exact (cryptoMap_values_fact _ (lookupSym_mem hl)).2.2.2
  | none =>
    by_cases h4 : (['U', 'S', 'D', 'T'].isSuffixOf u) = true
    · cases hb : lookupSym (stripUSDT u) cryptoMap with
      | some v =>
        have hv : getTickerSymbolCore u = v := by simp [getTickerSymbolCore, hl, h4, hb]
        rw [hv]
        exact (cryptoMap_values_fact _ (lookupSym_mem hb)).2.2.2
      | none =>
        have hv : getTickerSymbolCore u = stripUSDT u := by
          simp [getTickerSymbolCore, hl, h4, hb]
        rw [hv]
        exact stripUSDT_map_toUpper hu
    · have hv : getTickerSymbolCore u = u := by
        simp [getTickerSymbolCore, hl, h4, ite_self]
      rw [hv]
      exact hu

theorem getTickerSymbolCore_idem {u : List Char}
    (hnb : (['U', 'S', 'D', 'T'].isSuffixOf (stripUSDT u)) = false) :
    getTickerSymbolCore (getTickerSymbolCore u) = getTickerSymbolCore u := by
  cases hl : lookupSym u cryptoMap with
  | some v =>
    have hv : getTickerSymbolCore u = v := by simp [getTickerSymbolCore, hl]
    have f := cryptoMap_values_fact _ (lookupSym_mem hl)
    rw [hv]
    exact getTickerSymbolCore_eq_self f.1 f.2.1
  | none =>
    by_cases h4 : (['U', 'S', 'D', 'T'].isSuffixOf u) = true
    · cases hb : lookupSym (stripUSDT u) cryptoMap with
      | some v =>
        have hv : getTickerSymbolCore u = v := by simp [getTickerSymbolCore, hl, h4, hb]
        have f := cryptoMap_values_fact _ (lookupSym_mem hb)
        rw [hv]
        exact getTickerSymbolCore_eq_self f.1 f.2.1
      | none =>
        have hv : getTickerSymbolCore u = stripUSDT u := by
          simp [getTickerSymbolCore, hl, h4, hb]
        rw [hv]
        exact getTickerSymbolCore_eq_self hb hnb
    · have hv : getTickerSymbolCore u = u := by
        simp [getTickerSymbolCore, hl, h4, ite_self]
      rw [hv]
      exact hv

/-- C9 counterexample: the normalization of market/server.py is not
idempotent.  UUSDTSDTUSDT ends in USDT, and stripping every USDT
occurrence reassembles the string USDT from the leftover fragments, so one
pass yields USDT while a second pass strips again and yields the empty
string. -/
theorem getTickerSymbol_not_idempotent_cex :
    getTickerSymbol "UUSDTSDTUSDT" = "USDT" ∧
    getTickerSymbol (getTickerSymbol "UUSDTSDTUSDT") = "" ∧
    getTickerSymbol (getTickerSymbol "UUSDTSDTUSDT") ≠ getTickerSymbol "UUSDTSDTUSDT" :=
  ⟨by decide, by decide, by decide⟩

/-- C9 amended: the rule-based normalizer N of market/server.py (also in
volatility/server.py) satisfies N(N(s)) = N(s) for every input whose
uppercased form, after removing every USDT occurrence, does not again end
in USDT — the failing inputs are exactly those where the replace-all
stripping reassembles a trailing USDT; the map-only normalizer of
market/server_real.py is idempotent unconditionally. -/
theorem getTickerSymbol_idem (s : String)
    (h : (['U', 'S', 'D', 'T'].isSuffixOf (stripUSDT (s.data.map Char.toUpper))) = false) :
    getTickerSymbol (getTickerSymbol s) = getTickerSymbol s ∧
    (∀ t : String, getTickerSymbolReal (getTickerSymbolReal t) = getTickerSymbolReal t) := by
  constructor
  · have hu : (s.data.map Char.toUpper).map Char.toUpper = s.data.map Char.toUpper :=
      map_toUpper_idem s.data
    show (⟨getTickerSymbolCore
        ((getTickerSymbolCore (s.data.map Char.toUpper)).map Char.toUpper)⟩ : String) =
      (⟨getTickerSymbolCore (s.data.map Char.toUpper)⟩ : String)
    rw [getTickerSymbolCore_map_toUpper hu, getTickerSymbolCore_idem h]
  · intro t
    unfold getTickerSymbolReal
    cases hl : lookupPos t cryptoMapReal with
    | some v =>
      have hv := cryptoMapReal_values_fact _ (lookupPos_mem hl)
      simp [hv]
    | none => simp [hl]

/-- C9 witness: the amended theorem at the input btcusdt, whose stripped
base BTC does not end in USDT; both normalizers are idempotent there. -/
theorem getTickerSymbol_idem_witness :
    getTickerSymbol (getTickerSymbol "btcusdt") = getTickerSymbol "btcusdt" ∧
    (∀ t : String, getTickerSymbolReal (getTickerSymbolReal t) = getTickerSymbolReal t) :=
  getTickerSymbol_idem "btcusdt" (by decide)
